import Mathlib

/-!
Shallow embedding of the Mocktopus runtime core.

The repository contains `src/mocking_utils.rs`, the `OnceMutCell` single-borrow
cell, together with integration tests for the mock registry and dispatch engine
(whose implementation is not part of the shown sources).  The cell is embedded
as a record with a `borrowed` flag and a wrapped `value`; each Rust method
becomes a Lean function from cell state to a result paired with the successor
state.  Panics are represented explicitly by a `PanicOr` outcome type.
-/

/-- Outcome of a Rust computation that may panic: either a normal result or a
panic carrying the panic message. -/
inductive PanicOr (R : Type) where
  | panic (msg : String)
  | ok (r : R)
  deriving Repr, DecidableEq

/-- The error raised when borrowing an already-borrowed `OnceMutCell`
(`OnceMutCellBorrowedError` in `mocking_utils.rs`). -/
inductive OnceMutCellBorrowedError where
  | mk
  deriving Repr, DecidableEq

/-- The message of `panic_already_borrowed` in `mocking_utils.rs`. -/
def alreadyBorrowedMsg : String := "`OnceMutCell` already borrowed"

/-- `OnceMutCell<T>` from `mocking_utils.rs`: a `borrowed: Cell<bool>` flag
next to an `UnsafeCell<T>` holding the wrapped value. -/
structure OnceMutCell (T : Type) where
  borrowed : Bool
  value : T
  deriving Repr, DecidableEq

namespace OnceMutCell

variable {T R : Type}

/-- `OnceMutCell::new`: flag cleared, value stored. -/
def new (value : T) : OnceMutCell T :=
  { borrowed := false, value := value }

/-- `OnceMutCell::into_inner`: consumes the cell, returning its value
(`self.value.into_inner()`; the flag is neither read nor checked). -/
def into_inner (c : OnceMutCell T) : T :=
  c.value

/-- `OnceMutCell::get_mut`: a mutable reference to the wrapped value, obtained
through a uniquely-owning handle.  The reference's initial referent is the
current value; the cell (in particular the flag) is untouched. -/
def get_mut (c : OnceMutCell T) : T × OnceMutCell T :=
  (c.value, c)

/-- Writing through an outstanding mutable reference into the cell (one
returned by `get_mut`, `try_borrow` or `borrow`): the reference points at the
value slot, so the write replaces the value and leaves the flag alone. -/
def writeThroughRef (c : OnceMutCell T) (v : T) : OnceMutCell T :=
  { c with value := v }

/-- `OnceMutCell::reset`: `self.borrowed.set(false)`. -/
def reset (c : OnceMutCell T) : OnceMutCell T :=
  { c with borrowed := false }

/-- `OnceMutCell::try_borrow`: error if the flag is set, otherwise set the flag
and hand out the (reference to the) wrapped value. -/
def try_borrow (c : OnceMutCell T) :
    Except OnceMutCellBorrowedError T × OnceMutCell T :=
  if c.borrowed then
    (Except.error OnceMutCellBorrowedError.mk, c)
  else
    (Except.ok c.value, { c with borrowed := true })

/-- `OnceMutCell::borrow`: `try_borrow`, converting the error into the
`panic_already_borrowed` panic. -/
def borrow (c : OnceMutCell T) : PanicOr T × OnceMutCell T :=
  match c.try_borrow with
  | (Except.ok v, c2) => (PanicOr.ok v, c2)
  | (Except.error _, c2) => (PanicOr.panic alreadyBorrowedMsg, c2)

/-- `OnceMutCell::try_with`: error if the flag is set; otherwise set the flag,
run the callback on the wrapped value, and clear the flag when the callback
finishes — the clearing is done by the scoped `Guard` whose `Drop` runs both on
normal return and on a panic of the callback.  A callback is a function from
the value to a possibly-panicking result paired with the value as the callback
left it. -/
def try_with (f : T → PanicOr R × T) (c : OnceMutCell T) :
    PanicOr (Except OnceMutCellBorrowedError R) × OnceMutCell T :=
  if c.borrowed then
    (PanicOr.ok (Except.error OnceMutCellBorrowedError.mk), c)
  else
    match f c.value with
    | (PanicOr.ok r, v) => (PanicOr.ok (Except.ok r), { borrowed := false, value := v })
    | (PanicOr.panic m, v) => (PanicOr.panic m, { borrowed := false, value := v })

/-- `OnceMutCell::with`: `try_with`, converting the already-borrowed error into
the `panic_already_borrowed` panic. -/
def withCallback (f : T → PanicOr R × T) (c : OnceMutCell T) :
    PanicOr R × OnceMutCell T :=
  match c.try_with f with
  | (PanicOr.ok (Except.ok r), c2) => (PanicOr.ok r, c2)
  | (PanicOr.ok (Except.error _), c2) => (PanicOr.panic alreadyBorrowedMsg, c2)
  | (PanicOr.panic m, c2) => (PanicOr.panic m, c2)

/-- `impl Clone for OnceMutCell`: `Self::new(self.with(|v| v.clone()))`. -/
def clone (c : OnceMutCell T) : PanicOr (OnceMutCell T) :=
  match (c.withCallback (fun v => (PanicOr.ok v, v))).1 with
  | PanicOr.ok v => PanicOr.ok (OnceMutCell.new v)
  | PanicOr.panic m => PanicOr.panic m

/-- `impl PartialEq for OnceMutCell`:
`self.with(|this| other.with(|other| this == other))`. -/
def cellEq [BEq T] (c d : OnceMutCell T) : PanicOr Bool :=
  (c.withCallback (fun this =>
    match (d.withCallback (fun that => (PanicOr.ok (this == that), that))).1 with
    | PanicOr.ok b => (PanicOr.ok b, this)
    | PanicOr.panic m => (PanicOr.panic m, this))).1

/-- `impl PartialOrd for OnceMutCell`:
`self.with(|this| other.with(|other| (*this).partial_cmp(&*other)))`, with the
value type's comparison passed in explicitly. -/
def cellPartialCmp (pc : T → T → Option Ordering) (c d : OnceMutCell T) :
    PanicOr (Option Ordering) :=
  (c.withCallback (fun this =>
    match (d.withCallback (fun that => (PanicOr.ok (pc this that), that))).1 with
    | PanicOr.ok o => (PanicOr.ok o, this)
    | PanicOr.panic m => (PanicOr.panic m, this))).1

/-- `impl Ord for OnceMutCell`:
`self.with(|this| other.with(|other| (*this).cmp(&*other)))`. -/
def cellCmp [Ord T] (c d : OnceMutCell T) : PanicOr Ordering :=
  (c.withCallback (fun this =>
    match (d.withCallback (fun that => (PanicOr.ok (compare this that), that))).1 with
    | PanicOr.ok o => (PanicOr.ok o, this)
    | PanicOr.panic m => (PanicOr.panic m, this))).1

/-- `impl Debug for OnceMutCell`: formats through `try_with`
(`debug_tuple("OnceMutCell").field(&value)` yields `OnceMutCell(<value>)`);
on the already-borrowed error it instead pads `"OnceMutCell(<borrowed>)"`. -/
def debugFmt (toStr : T → String) (c : OnceMutCell T) : String :=
  match (c.try_with (fun v =>
      (PanicOr.ok ("OnceMutCell(" ++ toStr v ++ ")"), v))).1 with
  | PanicOr.ok (Except.ok s) => s
  | PanicOr.ok (Except.error _) => "OnceMutCell(<borrowed>)"
  | PanicOr.panic _ => "OnceMutCell(<borrowed>)"

end OnceMutCell

example : ((OnceMutCell.new 5).try_borrow).1 = Except.ok 5 := rfl
example : (((OnceMutCell.new 5).try_borrow).2.try_borrow).1 =
    Except.error OnceMutCellBorrowedError.mk := rfl

/-!
Mock registry and dispatch.  The engine itself is not among the shown sources —
only its integration tests are — so the following definitions are modelled from
the specification of the Verdict protocol, the per-identity per-thread registry
and the injected dispatch preamble.
-/

/-- Modelled from the spec: the Verdict (`MockResult`) a mock closure returns —
`Continue(args)` proceeds into the real body with substituted arguments,
`Return(value)` skips the real body and substitutes the result.  The engine's
implementation is missing from the sources; only its tests are shown. -/
inductive MockResult (A R : Type) where
  | Continue (args : A)
  | Return (value : R)

/-- Modelled from the spec: a registry maps a function identity (for generics,
one distinct identity per concrete instantiation) to at most one stored mock
closure; an empty slot means no mock.  The storage implementation is missing
from the sources. -/
def Registry (K M : Type) : Type := K → Option M

/-- A registry with every slot empty. -/
def emptyRegistry (K M : Type) : Registry K M := fun _ => none

/-- Modelled from the spec: `set_mock` stores the closure in this identity's
slot, silently replacing any previous registration; no other slot changes.
The registration implementation is missing from the sources. -/
def set_mock {K M : Type} [DecidableEq K] (reg : Registry K M) (k : K) (m : M) :
    Registry K M :=
  fun k2 => if k2 = k then some m else reg k2

/-- Modelled from the spec: the dispatch lookup run by the injected preamble —
an empty slot runs the real body on the original arguments; a stored mock is
invoked with the arguments and its Verdict either substitutes the call's result
or continues into the real body with substituted arguments.  The dispatch
implementation is missing from the sources. -/
def dispatch {A R : Type} (slot : Option (A → MockResult A R)) (body : A → R)
    (args : A) : R :=
  match slot with
  | none => body args
  | some mock =>
    match mock args with
    | MockResult.Continue args2 => body args2
    | MockResult.Return v => v

/-- Modelled from the spec: the code-generation collaborator wraps a mockable
function's body in the dispatch preamble consulting its slot. -/
def injected {A R : Type} (slot : Option (A → MockResult A R)) (body : A → R) :
    A → R :=
  fun args => dispatch slot body args

/-- Modelled from the spec: annotating a function as mockable twice currently
wraps the preamble around the already-wrapped body a second time, both
consultations hitting the same slot — recorded in the sources' test
`annotating_function_twice_makes_it_injected_once` and noted by the spec as an
open defect. -/
def doublyInjected {A R : Type} (slot : Option (A → MockResult A R))
    (body : A → R) : A → R :=
  injected slot (injected slot body)

/-- Modelled from the spec: a call site of a function required to be
constant-evaluable is compiled as a constant expression, so its value is
computed before any registry could be populated — against an empty slot — and
the run-time registry passed here is never consulted. -/
def constCompiledCall {K A R : Type} (_runtimeReg : Registry K (A → MockResult A R))
    (k : K) (body : A → R) (args : A) : R :=
  dispatch (emptyRegistry K (A → MockResult A R) k) body args

/-- Modelled from the spec: mock slots live in thread-local storage — each
thread has its own independent registry.  The thread-local storage is missing
from the sources. -/
def ThreadRegistries (Tid K M : Type) : Type := Tid → Registry K M

/-- Modelled from the spec: a fresh thread's thread-local registry starts with
every slot empty. -/
def freshThreads (Tid K M : Type) : ThreadRegistries Tid K M :=
  fun _ => emptyRegistry K M

/-- Modelled from the spec: registering a mock on one thread touches only that
thread's registry. -/
def setMockOnThread {Tid K M : Type} [DecidableEq Tid] [DecidableEq K]
    (regs : ThreadRegistries Tid K M) (t : Tid) (k : K) (m : M) :
    ThreadRegistries Tid K M :=
  fun t2 => if t2 = t then set_mock (regs t2) k m else regs t2

/-!
Concrete mockable functions and mocks from the repository's tests.
-/

/-- `const_fn` from `tests/mocking.rs`: a `const fn` returning `1`. -/
def const_fn : Unit → Nat := fun _ => 1

/-- The mock registered against `const_fn`: `|| MockResult::Return(2)`. -/
def constFnMock : Unit → MockResult Unit Nat := fun _ => MockResult.Return 2

/-- `two_args_returns_first_ignores_second(x, _) = x` from `tests/mocking.rs`. -/
def two_args_returns_first_ignores_second : Nat × Nat → Nat := fun p => p.1

/-- The mock `|x, y| MockResult::Continue((y, x))` from `tests/mocking.rs`. -/
def swapMock : Nat × Nat → MockResult (Nat × Nat) Nat :=
  fun p => MockResult.Continue (p.2, p.1)

/-- `mock_annotated_fn(x) = x * 2` from `tests/mocking.rs`, annotated mockable
twice. -/
def mock_annotated_fn : Nat → Nat := fun x => x * 2

/-- The mock `|x| MockResult::Continue((x + 1,))` from `tests/mocking.rs`. -/
def incMock : Nat → MockResult Nat Nat := fun x => MockResult.Continue (x + 1)

/-- `no_args_returns_str() = "not mocked"` from `tests/mocking.rs`. -/
def no_args_returns_str : Unit → String := fun _ => "not mocked"

/-- The distinct literal test `tNN` mocks `no_args_returns_str` to return
(zero-based index `i` names test `t(i+1)`). -/
def leakTestName (i : Nat) : String := "t" ++ toString (i + 1)

/-- Test `t(i+1)`'s mock: `|| MockResult::Return(stringify!(t(i+1)))`. -/
def leakTestMock (i : Nat) : Unit → MockResult Unit String :=
  fun _ => MockResult.Return (leakTestName i)

/-- Thread-local registries after the first `n` of the 64 leakage tests ran,
test `i` running on its own fresh thread `i` and registering its mock against
`no_args_returns_str` (identity key `0`). -/
def leakRegsAfter : Nat → ThreadRegistries Nat Nat (Unit → MockResult Unit String)
  | 0 => freshThreads Nat Nat (Unit → MockResult Unit String)
  | n + 1 => setMockOnThread (leakRegsAfter n) n 0 (leakTestMock n)

/-- `Struct::<T>::static_method(arg: bool) -> String` from the async method
tests: `format!("{}", arg)`, the same body at every instantiation `T`. -/
def static_method : Bool → String := fun a => if a then "true" else "false"

/-- The mock registered against `Struct::<u8>::static_method` only:
`|a| MockResult::Continue((!a,))`. -/
def negMock : Bool → MockResult Bool String := fun a => MockResult.Continue (!a)

example : dispatch (some swapMock) two_args_returns_first_ignores_second (1, 2) = 2 := rfl
example : doublyInjected (some incMock) mock_annotated_fn 1 = 6 := rfl
example : injected (some incMock) mock_annotated_fn 1 = 4 := rfl

/-- A concrete callback that panics after mutating the value, used to witness
the guard's behavior under a callback panic. -/
def cbPanic : Nat → PanicOr Nat × Nat := fun v => (PanicOr.panic "boom", v + 1)

/-- C1: for a `OnceMutCell` in the Free state, the first `try_borrow` succeeds
and hands out the wrapped value; a second `try_borrow` without an intervening
`reset` fails with the already-borrowed error and `borrow` panics; after a
mutation through the outstanding reference followed by `reset` through a
uniquely-owning handle, or after a `try_with` callback returns, a subsequent
`try_borrow` succeeds and the reference it returns observes the mutation. -/
theorem C1_cell_one_shot_borrow {T R : Type} (c : OnceMutCell T) (m : T)
    (f : T → PanicOr R × T) (h : c.borrowed = false) :
    ((c.try_borrow).1 = Except.ok c.value ∧ (c.try_borrow).2.borrowed = true) ∧
    ((c.try_borrow).2.try_borrow).1 = Except.error OnceMutCellBorrowedError.mk ∧
    ((c.try_borrow).2.borrow).1 = PanicOr.panic alreadyBorrowedMsg ∧
    ((((c.try_borrow).2.writeThroughRef m).reset).try_borrow).1 = Except.ok m ∧
    ((c.try_with f).2.try_borrow).1 = Except.ok (f c.value).2 := by
  have hc : c.try_borrow = (Except.ok c.value, { c with borrowed := true }) := by
    simp [OnceMutCell.try_borrow, h]
  refine ⟨⟨by rw [hc], by rw [hc]⟩, ?_, ?_, ?_, ?_⟩
  · rw [hc]; simp [OnceMutCell.try_borrow]
  · rw [hc]; simp [OnceMutCell.borrow, OnceMutCell.try_borrow]
  · rw [hc]
    simp [OnceMutCell.writeThroughRef, OnceMutCell.reset, OnceMutCell.try_borrow]
  · rcases hf : f c.value with ⟨pr, v⟩
    cases pr <;> simp [OnceMutCell.try_with, h, hf, OnceMutCell.try_borrow]

/-- Witness for C1 at the concrete cell `new 5`, mutation writing `9`, and a
callback incrementing the value. -/
theorem C1_cell_one_shot_borrow_witness :
    (((OnceMutCell.new 5).try_borrow).1 = Except.ok 5 ∧
      ((OnceMutCell.new 5).try_borrow).2.borrowed = true) ∧
    (((OnceMutCell.new 5).try_borrow).2.try_borrow).1 =
      Except.error OnceMutCellBorrowedError.mk ∧
    (((OnceMutCell.new 5).try_borrow).2.borrow).1 =
      PanicOr.panic alreadyBorrowedMsg ∧
    (((((OnceMutCell.new 5).try_borrow).2.writeThroughRef 9).reset).try_borrow).1 =
      Except.ok 9 ∧
    (((OnceMutCell.new 5).try_with (fun v => (PanicOr.ok v, v + 1))).2.try_borrow).1 =
      Except.ok 6 :=
  C1_cell_one_shot_borrow (OnceMutCell.new 5) 9 (fun v => (PanicOr.ok v, v + 1)) rfl

/-- C2: starting from the Free state, `try_with` runs the callback on the
wrapped value and the scoped guard clears the borrowed flag in every case —
normal return and callback panic alike — leaving the cell Free with the
callback's final value; the call's outcome is the callback's outcome (wrapped
in `Ok` on normal return, the panic propagated otherwise), and the same holds
for `with`. -/
theorem C2_with_guard_always_resets {T R : Type} (c : OnceMutCell T)
    (f : T → PanicOr R × T) (h : c.borrowed = false) :
    (c.try_with f).2.borrowed = false ∧
    (c.try_with f).2.value = (f c.value).2 ∧
    (c.try_with f).1 =
      (match (f c.value).1 with
       | PanicOr.ok r => PanicOr.ok (Except.ok r)
       | PanicOr.panic msg => PanicOr.panic msg) ∧
    (c.withCallback f).2.borrowed = false := by
  rcases hf : f c.value with ⟨pr, v⟩
  cases pr <;>
    simp [OnceMutCell.try_with, OnceMutCell.withCallback, h, hf]

/-- Witness for C2 at the concrete cell `new 0` with a callback that mutates
the value and then panics: the flag is still cleared. -/
theorem C2_with_guard_always_resets_witness :
    ((OnceMutCell.new 0).try_with cbPanic).2.borrowed = false ∧
    ((OnceMutCell.new 0).try_with cbPanic).2.value = 1 ∧
    ((OnceMutCell.new 0).try_with cbPanic).1 = PanicOr.panic "boom" ∧
    ((OnceMutCell.new 0).withCallback cbPanic).2.borrowed = false :=
  C2_with_guard_always_resets (OnceMutCell.new 0) cbPanic rfl

/-- C7: on a cell whose borrowed flag is set, equality, ordering and cloning
panic with the already-borrowed message (they route through `with`), while
debug-formatting does not panic and produces the placeholder
`"OnceMutCell(<borrowed>)"`; on Free cells each operation produces the
corresponding operation's result on the wrapped value. -/
theorem C7_trait_impls_route_through_with {T : Type} [BEq T] [Ord T]
    (pc : T → T → Option Ordering) (toStr : T → String) (c d : OnceMutCell T) :
    (c.borrowed = true →
      c.cellEq d = PanicOr.panic alreadyBorrowedMsg ∧
      OnceMutCell.cellPartialCmp pc c d = PanicOr.panic alreadyBorrowedMsg ∧
      c.cellCmp d = PanicOr.panic alreadyBorrowedMsg ∧
      c.clone = PanicOr.panic alreadyBorrowedMsg ∧
      c.debugFmt toStr = "OnceMutCell(<borrowed>)") ∧
    (c.borrowed = false → d.borrowed = false →
      c.cellEq d = PanicOr.ok (c.value == d.value) ∧
      OnceMutCell.cellPartialCmp pc c d = PanicOr.ok (pc c.value d.value) ∧
      c.cellCmp d = PanicOr.ok (compare c.value d.value) ∧
      c.clone = PanicOr.ok (OnceMutCell.new c.value) ∧
      c.debugFmt toStr = "OnceMutCell(" ++ toStr c.value ++ ")") := by
  constructor
  · intro hb
    simp [OnceMutCell.cellEq, OnceMutCell.cellPartialCmp, OnceMutCell.cellCmp,
      OnceMutCell.clone, OnceMutCell.debugFmt, OnceMutCell.withCallback,
      OnceMutCell.try_with, hb]
  · intro hc hd
    simp [OnceMutCell.cellEq, OnceMutCell.cellPartialCmp, OnceMutCell.cellCmp,
      OnceMutCell.clone, OnceMutCell.debugFmt, OnceMutCell.withCallback,
      OnceMutCell.try_with, hc, hd]

/-- Witness for C7 at concrete cells: a borrowed cell panics on equality and
debug-formats to the placeholder; Free cells produce the wrapped values'
comparison, clone and debug output. -/
theorem C7_trait_impls_route_through_with_witness :
    (OnceMutCell.mk true 3).cellEq (OnceMutCell.new 3) =
      PanicOr.panic alreadyBorrowedMsg ∧
    (OnceMutCell.mk true 3).clone = PanicOr.panic alreadyBorrowedMsg ∧
    (OnceMutCell.mk true 3).debugFmt toString = "OnceMutCell(<borrowed>)" ∧
    (OnceMutCell.new 3).cellEq (OnceMutCell.new 3) = PanicOr.ok true ∧
    (OnceMutCell.new 3).cellCmp (OnceMutCell.new 4) = PanicOr.ok Ordering.lt ∧
    (OnceMutCell.new 3).clone = PanicOr.ok (OnceMutCell.new 3) ∧
    (OnceMutCell.new 3).debugFmt toString = "OnceMutCell(3)" := by
  have h1 := C7_trait_impls_route_through_with
    (fun a b : Nat => some (compare a b)) toString
    (OnceMutCell.mk true 3) (OnceMutCell.new 3)
  have h2 := C7_trait_impls_route_through_with
    (fun a b : Nat => some (compare a b)) toString
    (OnceMutCell.new 3) (OnceMutCell.new 3)
  have h3 := C7_trait_impls_route_through_with
    (fun a b : Nat => some (compare a b)) toString
    (OnceMutCell.new 3) (OnceMutCell.new 4)
  exact ⟨(h1.1 rfl).1, (h1.1 rfl).2.2.2.1, (h1.1 rfl).2.2.2.2,
    (h2.2 rfl rfl).1, (h3.2 rfl rfl).2.2.1,
    (h2.2 rfl rfl).2.2.2.1, (h2.2 rfl rfl).2.2.2.2⟩

/-- C8: `get_mut` hands out the wrapped value through a uniquely-owning handle
regardless of the flag and neither reads nor modifies the flag — the cell is
unchanged, a write through the reference changes only the value — so a cell
that was Borrowed stays Borrowed: a later `try_borrow` still fails until
`reset`. -/
theorem C8_get_mut_ignores_flag {T : Type} (c : OnceMutCell T) (v : T) :
    (c.get_mut).1 = c.value ∧
    (c.get_mut).2 = c ∧
    ((c.get_mut).2.writeThroughRef v).borrowed = c.borrowed ∧
    ((c.get_mut).2.writeThroughRef v).value = v ∧
    (c.borrowed = true →
      (((c.get_mut).2.writeThroughRef v).try_borrow).1 =
        Except.error OnceMutCellBorrowedError.mk ∧
      ((((c.get_mut).2.writeThroughRef v).reset).try_borrow).1 = Except.ok v) := by
  refine ⟨rfl, rfl, rfl, rfl, fun hb => ?_⟩
  simp [OnceMutCell.get_mut, OnceMutCell.writeThroughRef, OnceMutCell.reset,
    OnceMutCell.try_borrow, hb]

/-- Witness for C8 at the concrete Borrowed cell `⟨true, 5⟩` written with `7`. -/
theorem C8_get_mut_ignores_flag_witness :
    ((OnceMutCell.mk true 5).get_mut).1 = 5 ∧
    ((OnceMutCell.mk true 5).get_mut).2 = OnceMutCell.mk true 5 ∧
    (((OnceMutCell.mk true 5).get_mut).2.writeThroughRef 7).borrowed = true ∧
    (((OnceMutCell.mk true 5).get_mut).2.writeThroughRef 7).value = 7 ∧
    ((((OnceMutCell.mk true 5).get_mut).2.writeThroughRef 7).try_borrow).1 =
      Except.error OnceMutCellBorrowedError.mk ∧
    (((((OnceMutCell.mk true 5).get_mut).2.writeThroughRef 7).reset).try_borrow).1 =
      Except.ok 7 := by
  have h := C8_get_mut_ignores_flag (OnceMutCell.mk true 5) 7
  exact ⟨h.1, h.2.1, h.2.2.1, h.2.2.2.1, (h.2.2.2.2 rfl).1, (h.2.2.2.2 rfl).2⟩

/-- C10: `into_inner` on `new v` returns exactly `v`, and it succeeds
unconditionally — it neither checks nor requires the borrowed flag to be
clear, so consuming a cell whose flag is still set (for instance right after a
`borrow` without `reset`) still yields the wrapped value. -/
theorem C10_into_inner_unconditional {T : Type} (v : T) (b : Bool) :
    (OnceMutCell.new v).into_inner = v ∧
    (OnceMutCell.mk b v).into_inner = v ∧
    (((OnceMutCell.new v).borrow).2).into_inner = v :=
  ⟨rfl, rfl, rfl⟩

/-- C6: with the mock `|x, y| Continue((y, x))` registered for the real body
`fn(a, b) -> a`, dispatch runs the real body on the swapped arguments, so the
call `(a, b)` returns the original second argument `b` — in particular `(1, 2)`
returns `2` — while the unmocked call returns `a`. -/
theorem C6_continue_substitutes_args (a b : Nat) :
    dispatch (some swapMock) two_args_returns_first_ignores_second (a, b) = b ∧
    dispatch (some swapMock) two_args_returns_first_ignores_second (1, 2) = 2 ∧
    dispatch none two_args_returns_first_ignores_second (a, b) = a :=
  ⟨rfl, rfl, rfl⟩

/-- C4: registering a mock against a constant-evaluable function is accepted —
the slot really holds the mock, and ordinary dispatch would yield the mocked
value 2 — but a call site compiled as a constant expression never consults the
registry: it still runs the real body, so the `const fn` returning 1 still
returns 1 after being mocked to return 2. -/
theorem C4_const_fn_mock_never_consulted {K A R : Type} [DecidableEq K]
    (reg : Registry K (A → MockResult A R)) (k : K) (m : A → MockResult A R)
    (body : A → R) (args : A) :
    constCompiledCall (set_mock reg k m) k body args = body args ∧
    set_mock (emptyRegistry Nat (Unit → MockResult Unit Nat)) 0 constFnMock 0 =
      some constFnMock ∧
    constCompiledCall
      (set_mock (emptyRegistry Nat (Unit → MockResult Unit Nat)) 0 constFnMock)
      0 const_fn () = 1 ∧
    dispatch (set_mock (emptyRegistry Nat (Unit → MockResult Unit Nat)) 0 constFnMock 0)
      const_fn () = 2 :=
  ⟨rfl, rfl, rfl, rfl⟩

/-- C5: `set_mock` on one identity leaves every other identity's slot
untouched — for distinct instantiation keys `k1 ≠ k2`, registering at `k1`
stores the mock there and leaves `k2`'s slot exactly as it was — and
concretely, mocking `static_method` at the `u8` instantiation (key 0) with
`Continue((!a,))` makes that instantiation return "false" on `true` while the
`&str` instantiation (key 1) still returns its real "true". -/
theorem C5_instantiation_isolation {K M : Type} [DecidableEq K]
    (reg : Registry K M) (k1 k2 : K) (m : M) (h : k1 ≠ k2) :
    set_mock reg k1 m k2 = reg k2 ∧
    set_mock reg k1 m k1 = some m ∧
    dispatch (set_mock (emptyRegistry Nat (Bool → MockResult Bool String)) 0 negMock 0)
      static_method true = "false" ∧
    dispatch (set_mock (emptyRegistry Nat (Bool → MockResult Bool String)) 0 negMock 1)
      static_method true = "true" := by
  refine ⟨?_, ?_, rfl, rfl⟩
  · show (if k2 = k1 then some m else reg k2) = reg k2
    exact if_neg (Ne.symm h)
  · show (if k1 = k1 then some m else reg k1) = some m
    exact if_pos rfl

/-- Witness for C5 at concrete distinct keys 0 and 1. -/
theorem C5_instantiation_isolation_witness :
    set_mock (emptyRegistry Nat Nat) 0 42 1 = none ∧
    set_mock (emptyRegistry Nat Nat) 0 42 0 = some 42 ∧
    dispatch (set_mock (emptyRegistry Nat (Bool → MockResult Bool String)) 0 negMock 0)
      static_method true = "false" ∧
    dispatch (set_mock (emptyRegistry Nat (Bool → MockResult Bool String)) 0 negMock 1)
      static_method true = "true" :=
  C5_instantiation_isolation (emptyRegistry Nat Nat) 0 1 42 (by decide)

/-- C3: the claim fails on the code as shipped: a doubly-annotated function's
preamble consults the registry twice, so with the `Continue((x+1,))` mock on
the body `x*2`, the call at input 1 returns 6 — the value the repository's own
`___fix_me___` test currently asserts — while single injection (the behavior
the claim and the test's name describe) returns 4. -/
theorem C3_double_injection_behavior :
    doublyInjected (some incMock) mock_annotated_fn 1 = 6 ∧
    injected (some incMock) mock_annotated_fn 1 = 4 ∧
    doublyInjected (some incMock) mock_annotated_fn 1 ≠
      injected (some incMock) mock_annotated_fn 1 :=
  ⟨rfl, rfl, by decide⟩

/-- C9: registering a mock on one thread never changes what a call dispatched
on a different thread sees; and in the 64-test scenario — test `i` running on
its own fresh thread `i`, the first `i` tests having already registered their
mocks — test `i` observes the unmocked "not mocked" before its own
registration and its own distinct literal `t(i+1)` after it. -/
theorem C9_no_cross_thread_leakage :
    (∀ (regs : ThreadRegistries Nat Nat (Unit → MockResult Unit String))
        (t tB k : Nat) (m : Unit → MockResult Unit String) (body : Unit → String),
        tB ≠ t →
        dispatch (setMockOnThread regs t k m tB k) body () =
          dispatch (regs tB k) body ()) ∧
    (∀ i, i < 64 →
        dispatch (leakRegsAfter i i 0) no_args_returns_str () = "not mocked" ∧
        dispatch (leakRegsAfter (i + 1) i 0) no_args_returns_str () =
          leakTestName i) := by
  constructor
  · intro regs t tB k m body hne
    have hs : setMockOnThread regs t k m tB = regs tB := by
      simp [setMockOnThread, hne]
    rw [hs]
  · decide

/-- Witness for C9: thread 1 does not see thread 0's registration, and thread
0 sees its own literal after registering. -/
theorem C9_no_cross_thread_leakage_witness :
    dispatch
      (setMockOnThread (freshThreads Nat Nat (Unit → MockResult Unit String))
        0 0 (leakTestMock 0) 1 0)
      no_args_returns_str () = "not mocked" ∧
    dispatch (leakRegsAfter 1 0 0) no_args_returns_str () = leakTestName 0 := by
  refine ⟨?_, (C9_no_cross_thread_leakage.2 0 (by decide)).2⟩
  have h := C9_no_cross_thread_leakage.1
    (freshThreads Nat Nat (Unit → MockResult Unit String))
    0 1 0 (leakTestMock 0) no_args_returns_str (by decide)
  exact h.trans rfl
